import Mathlib

/-!
# Verification of the purrmint NIP-74 protocol engine

A shallow embedding of the protocol core of the `purrmint` repository:
the protocol types and their serde JSON codec (`src/types.rs`,
`src/nip74_service.rs`), the event builders (`build_mint_info_event`,
`OperationResult::to_event_with_signer`), the per-event listener pipeline
of `MintService::start_nip74_only` (`src/service.rs`), the default mint
handler (`DefaultMintHandler::handle`), and the service-mode state machine
of `MintService` (`src/service.rs`, `src/mintd_service.rs`).

Modelling conventions:
* JSON values are modelled at the `serde_json::Value` level by the `Json`
  inductive (numbers carried as `Int`; the claims under study never depend
  on numeric fine structure).  `serde_json::to_string`/`from_str` factor
  through `Value`, so (de)serialization is modelled value-to-value, with
  non-JSON plaintext represented by `Plaintext.raw`.
* The signer capability (`Arc<dyn NostrSigner>`) is a record of fallible
  functions: every call on a signer may fail (e.g. a remote NIP-46 signer).
* The relay transport is an external collaborator; publishing is modelled
  by an oracle `publish : Event → Bool` recording per-event success, and
  the orchestrator's network actions are recorded in a `ServiceAction` trace.
-/

/-- JSON values, modelling `serde_json::Value` (numbers as `Int`). -/
inductive Json where
  | null : Json
  | bool (b : Bool) : Json
  | num (n : Int) : Json
  | str (s : String) : Json
  | arr (xs : List Json) : Json
  | obj (fields : List (String × Json)) : Json

/-- `ResultStatus` from `src/types.rs` (`#[serde(rename_all = "lowercase")]`). -/
inductive ResultStatus where
  | Success : ResultStatus
  | Error : ResultStatus
deriving DecidableEq

/-- `ResultError` from `src/types.rs`: machine code plus human message. -/
structure ResultError where
  code : String
  message : String
deriving DecidableEq

/-- `OperationMethod` from `src/types.rs` (`#[serde(rename_all = "snake_case")]`). -/
inductive OperationMethod where
  | Info : OperationMethod
  | GetMintQuote : OperationMethod
  | CheckMintQuote : OperationMethod
  | Mint : OperationMethod
  | GetMeltQuote : OperationMethod
  | CheckMeltQuote : OperationMethod
  | Melt : OperationMethod
deriving DecidableEq

/-- `OperationRequest` from `src/types.rs` (kind 27401 payload). -/
structure OperationRequest where
  method : OperationMethod
  request_id : String
  data : Option Json

/-- `OperationResult` from `src/types.rs` (kind 27402 payload). -/
structure OperationResult where
  status : ResultStatus
  request_id : String
  data : Option Json
  error : Option ResultError

/-- The snake_case wire tag of each `OperationMethod` variant, as produced
by `#[serde(rename_all = "snake_case")]` on the source enum. -/
def methodToTag : OperationMethod → String
  | .Info => "info"
  | .GetMintQuote => "get_mint_quote"
  | .CheckMintQuote => "check_mint_quote"
  | .Mint => "mint"
  | .GetMeltQuote => "get_melt_quote"
  | .CheckMeltQuote => "check_melt_quote"
  | .Melt => "melt"

/-- Decode a wire tag back to an `OperationMethod`; any string outside the
seven snake_case tags is a decode error (`none`), per serde enum decoding. -/
def methodFromTag (s : String) : Option OperationMethod :=
  if s = "info" then some .Info
  else if s = "get_mint_quote" then some .GetMintQuote
  else if s = "check_mint_quote" then some .CheckMintQuote
  else if s = "mint" then some .Mint
  else if s = "get_melt_quote" then some .GetMeltQuote
  else if s = "check_melt_quote" then some .CheckMeltQuote
  else if s = "melt" then some .Melt
  else none

/-- The lowercase wire tag of a `ResultStatus`. -/
def statusToTag : ResultStatus → String
  | .Success => "success"
  | .Error => "error"

/-- Decode a `ResultStatus` wire tag. -/
def statusFromTag (s : String) : Option ResultStatus :=
  if s = "success" then some .Success
  else if s = "error" then some .Error
  else none

/-- First-match field lookup in a JSON object, as serde's field visitor
sees the fields of an object produced by this codec. -/
def jlookup : List (String × Json) → String → Option Json
  | [], _ => none
  | (k, v) :: rest, key => if k = key then some v else jlookup rest key

/-- serde decoding of a `String` field. -/
def decodeString : Json → Option String
  | .str s => some s
  | _ => none

/-- serde decoding of an `OperationMethod` field (a unit enum variant is a
bare string on the wire). -/
def decodeMethod : Json → Option OperationMethod
  | .str s => methodFromTag s
  | _ => none

/-- serde decoding of a `ResultStatus` field. -/
def decodeStatus : Json → Option ResultStatus
  | .str s => statusFromTag s
  | _ => none

/-- serde decoding of an `Option<serde_json::Value>` field: a missing key
and an explicit JSON `null` both decode to `None` (serde's `Option`
deserializer consumes `null` before the inner `Value` ever sees it);
any other value is kept verbatim.  This decoding never fails. -/
def decodeOptValue (fields : List (String × Json)) (key : String) : Option Json :=
  match jlookup fields key with
  | none => none
  | some .null => none
  | some v => some v

/-- serde encoding of `OperationRequest` (field order `method`,
`request_id`, `data`; `data` skipped when `None` per
`#[serde(skip_serializing_if = "Option::is_none")]`). -/
def encodeOperationRequest (r : OperationRequest) : Json :=
  .obj ([("method", .str (methodToTag r.method)), ("request_id", .str r.request_id)] ++
    (match r.data with
     | some d => [("data", d)]
     | none => []))

/-- serde decoding of `OperationRequest`: `method` and `request_id` are
required (missing or ill-typed fields fail), `data` is an optional value. -/
def decodeOperationRequest : Json → Option OperationRequest
  | .obj fields =>
    match jlookup fields "method" with
    | none => none
    | some mj =>
      match decodeMethod mj with
      | none => none
      | some m =>
        match jlookup fields "request_id" with
        | none => none
        | some rj =>
          match decodeString rj with
          | none => none
          | some rid => some ⟨m, rid, decodeOptValue fields "data"⟩
  | _ => none

/-- serde encoding of `ResultError` (two required string fields). -/
def encodeResultError (e : ResultError) : Json :=
  .obj [("code", .str e.code), ("message", .str e.message)]

/-- serde decoding of `ResultError`. -/
def decodeResultError : Json → Option ResultError
  | .obj fields =>
    match jlookup fields "code" with
    | none => none
    | some cj =>
      match decodeString cj with
      | none => none
      | some c =>
        match jlookup fields "message" with
        | none => none
        | some mj =>
          match decodeString mj with
          | none => none
          | some m => some ⟨c, m⟩
  | _ => none

/-- serde decoding of the `Option<ResultError>` field `error`: missing or
`null` is `None`; a present non-null value must decode as a `ResultError`
or the whole decode fails. -/
def decodeOptError (fields : List (String × Json)) : Option (Option ResultError) :=
  match jlookup fields "error" with
  | none => some none
  | some .null => some none
  | some v =>
    match decodeResultError v with
    | none => none
    | some e => some (some e)

/-- serde encoding of `OperationResult` (field order `status`,
`request_id`, `data`, `error`; the two options skipped when `None`). -/
def encodeOperationResult (r : OperationResult) : Json :=
  .obj ([("status", .str (statusToTag r.status)), ("request_id", .str r.request_id)] ++
    (match r.data with
     | some d => [("data", d)]
     | none => []) ++
    (match r.error with
     | some e => [("error", encodeResultError e)]
     | none => []))

/-- serde decoding of `OperationResult`. -/
def decodeOperationResult : Json → Option OperationResult
  | .obj fields =>
    match jlookup fields "status" with
    | none => none
    | some sj =>
      match decodeStatus sj with
      | none => none
      | some st =>
        match jlookup fields "request_id" with
        | none => none
        | some rj =>
          match decodeString rj with
          | none => none
          | some rid =>
            match decodeOptError fields with
            | none => none
            | some err => some ⟨st, rid, decodeOptValue fields "data", err⟩
  | _ => none

/-! ## Events, signer capability and the NIP-44 envelope -/

/-- Hex public key of a Nostr actor, kept opaque. -/
def PubKey := String
deriving DecidableEq

/-- Hex id of a Nostr event, kept opaque. -/
def EventId := String
deriving DecidableEq

/-- A decrypted NIP-44 plaintext: either text that parses as JSON
(carried as the parsed value) or arbitrary non-JSON text. -/
inductive Plaintext where
  | json (j : Json) : Plaintext
  | raw (s : String) : Plaintext

/-- Event content: kind 37400 carries plaintext JSON, kinds 27401/27402
carry an opaque NIP-44 ciphertext string. -/
inductive Content where
  | plain (j : Json) : Content
  | cipher (c : String) : Content

/-- An unsigned event draft, as assembled by `nostr::EventBuilder`. -/
structure EventDraft where
  kind : Nat
  tags : List (List String)
  content : Content

/-- A signed Nostr event (fields the protocol engine reads). -/
structure Event where
  id : EventId
  pubkey : PubKey
  kind : Nat
  tags : List (List String)
  content : Content

/-- The signing capability (`Arc<dyn NostrSigner>`): every operation may
fail, e.g. when the signer delegates to a remote service.  `signIdPk`
models event signing as assigning an id and author pubkey to a draft. -/
structure Signer where
  getPublicKey : Option PubKey
  nip44Encrypt : PubKey → Plaintext → Option String
  nip44Decrypt : PubKey → Content → Option Plaintext
  signIdPk : EventDraft → Option (EventId × PubKey)

/-- Signing keeps the draft's kind, tags and content and stamps the
signer's id/pubkey, as `EventBuilder::sign` does. -/
def Signer.signEvent (s : Signer) (d : EventDraft) : Option Event :=
  match s.signIdPk d with
  | none => none
  | some (i, pk) => some ⟨i, pk, d.kind, d.tags, d.content⟩

/-- `build_mint_info_event` (`src/nip74_service.rs:120-151`): a kind-37400
event whose content is the verbatim JSON of the supplied mint info (no
encryption), tagged `d`/`relays`/`status` with caller extras appended, and
signed by the supplied signer.  It returns only the event — publishing is
the orchestrator's job. -/
def build_mint_info_event (mint_info : Json) (signer : Signer) (identifier : String)
    (relays : List String) (status : String) (extra_tags : Option (List (List String))) :
    Option Event :=
  let tags := [["d", identifier], "relays" :: relays, ["status", status]] ++
    (match extra_tags with
     | some ts => ts
     | none => [])
  signer.signEvent ⟨37400, tags, .plain mint_info⟩

/-- `OperationResult::to_event_with_signer` (`src/nip74_service.rs:153-188`):
serialize the result, NIP-44-encrypt it to the receiver, tag with the
receiver's pubkey (`p`) and the originating request event id (`e`), append
extras, and sign.  The `author_pubkey` argument is only debug-asserted in
the source and does not influence the event. -/
def OperationResult.to_event_with_signer (res : OperationResult) (signer : Signer)
    (author_pubkey receiver_pubkey : PubKey) (request_event_id : EventId)
    (extra_tags : Option (List (List String))) : Option Event :=
  match signer.nip44Encrypt receiver_pubkey (.json (encodeOperationResult res)) with
  | none => none
  | some enc =>
    let tags := [["p", receiver_pubkey], ["e", request_event_id]] ++
      (match extra_tags with
       | some ts => ts
       | none => [])
    signer.signEvent ⟨27402, tags, .cipher enc⟩

/-- `serde_json::from_str::<OperationRequest>` on a decrypted plaintext:
non-JSON text never parses, JSON text parses per the serde codec. -/
def parseOperationRequest : Plaintext → Option OperationRequest
  | .json j => decodeOperationRequest j
  | .raw _ => none

/-! ## The per-event listener pipeline -/

/-- Terminal state of the listener's per-event state machine
(`src/service.rs:236-283`).  `panicked` models the `.unwrap()` on
`signer.get_public_key()` at `src/service.rs:254`: a panic in the spawned
tokio task terminates the listener task.  Every other outcome merely logs
and lets the loop continue with the next notification. -/
inductive StepOutcome where
  | ignored : StepOutcome
  | droppedDecrypt : StepOutcome
  | droppedParse : StepOutcome
  | droppedHandler : StepOutcome
  | panicked : StepOutcome
  | droppedBuild : StepOutcome
  | published (replyEvent : Event) (delivered : Bool) : StepOutcome

/-- Whether the outcome carries a published (attempted) kind-27402 reply. -/
def StepOutcome.isPublished : StepOutcome → Bool
  | .published _ _ => true
  | _ => false

/-- Whether the outcome terminates the listener task. -/
def StepOutcome.killsTask : StepOutcome → Bool
  | .panicked => true
  | _ => false

/-- One iteration of the listener loop spawned by
`MintService::start_nip74_only` (`src/service.rs:235-284`) on a single
inbound event: kind filter, NIP-44 decrypt with the sender as counterparty,
serde parse, handler dispatch, reply construction and publish.  `handler`
is the installed `RequestHandler` and `publish` the relay pool's
per-event send outcome. -/
def processEvent (signer : Signer) (handler : OperationRequest → Except Unit OperationResult)
    (publish : Event → Bool) (ev : Event) : StepOutcome :=
  if ev.kind ≠ 27401 then .ignored
  else
    match signer.nip44Decrypt ev.pubkey ev.content with
    | none => .droppedDecrypt
    | some plaintext =>
      match parseOperationRequest plaintext with
      | none => .droppedParse
      | some req =>
        match handler req with
        | .error _ => .droppedHandler
        | .ok res =>
          match signer.getPublicKey with
          | none => .panicked
          | some pk =>
            match res.to_event_with_signer signer pk ev.pubkey ev.id none with
            | none => .droppedBuild
            | some replyEvent => .published replyEvent (publish replyEvent)

/-! ## The default mint handler (`DefaultMintHandler::handle`) -/

/-- External collaborator model for `DefaultMintHandler`
(`src/nip74_service.rs:268-429`): per payload-carrying method, the serde
decoding of `req.data` into the cdk request type (`parse…`, composed with
the `try_into` uuid conversion for `Mint`/`Melt`), and the underlying
`cdk::mint::Mint` call, whose failure message feeds the business error.
Payloads and responses are carried as their JSON images. -/
structure MintModel where
  mintInfo : Except String Json
  parseMintQuote : Json → Option Json
  mintQuote : Json → Except String Json
  parseCheckMintQuote : Json → Option Json
  checkMintQuote : Json → Except String Json
  parseMint : Json → Option Json
  mint : Json → Except String Json
  parseMeltQuote : Json → Option Json
  meltQuote : Json → Except String Json
  parseCheckMeltQuote : Json → Option Json
  checkMeltQuote : Json → Except String Json
  parseMelt : Json → Option Json
  melt : Json → Except String Json

/-- The serde fact about the cdk payload types referenced by the handler:
`MintQuoteBolt11Request`, `Uuid`, `MintRequest<String>`,
`MeltQuoteBolt11Request` and `MeltRequest<String>` all reject JSON `null`
(they are structs with required fields, or a uuid string). -/
def MintModel.ParsersRejectNull (m : MintModel) : Prop :=
  m.parseMintQuote .null = none ∧ m.parseCheckMintQuote .null = none ∧
  m.parseMint .null = none ∧ m.parseMeltQuote .null = none ∧
  m.parseCheckMeltQuote .null = none ∧ m.parseMelt .null = none

/-- The method-specific business error code used by `DefaultMintHandler`. -/
def methodErrorCode : OperationMethod → String
  | .Info => "info_failed"
  | .GetMintQuote => "get_mint_quote_failed"
  | .CheckMintQuote => "check_mint_quote_failed"
  | .Mint => "mint_failed"
  | .GetMeltQuote => "get_melt_quote_failed"
  | .CheckMeltQuote => "check_melt_quote_failed"
  | .Melt => "melt_failed"

/-- `DefaultMintHandler::handle` (`src/nip74_service.rs:282-429`).  For
payload methods, `req.data.unwrap_or(Value::Null)` is decoded; a decode
failure propagates as a handler error (`?`).  A mint-call failure is
encoded as a delivered `OperationResult` with `status: Error` and the
method-specific code; success yields `status: Success` with the response
as `data`.  Every branch mirrors `req.request_id` into the result. -/
def defaultMintHandle (m : MintModel) (req : OperationRequest) :
    Except Unit OperationResult :=
  match req.method with
  | .Info =>
    match m.mintInfo with
    | .ok info => .ok ⟨.Success, req.request_id, some (.obj [("info", info)]), none⟩
    | .error e => .ok ⟨.Error, req.request_id, none, some ⟨"info_failed", e⟩⟩
  | .GetMintQuote =>
    match m.parseMintQuote (req.data.getD .null) with
    | none => .error ()
    | some p =>
      match m.mintQuote p with
      | .ok q => .ok ⟨.Success, req.request_id, some q, none⟩
      | .error e => .ok ⟨.Error, req.request_id, none, some ⟨"get_mint_quote_failed", e⟩⟩
  | .CheckMintQuote =>
    match m.parseCheckMintQuote (req.data.getD .null) with
    | none => .error ()
    | some p =>
      match m.checkMintQuote p with
      | .ok q => .ok ⟨.Success, req.request_id, some q, none⟩
      | .error e => .ok ⟨.Error, req.request_id, none, some ⟨"check_mint_quote_failed", e⟩⟩
  | .Mint =>
    match m.parseMint (req.data.getD .null) with
    | none => .error ()
    | some p =>
      match m.mint p with
      | .ok q => .ok ⟨.Success, req.request_id, some q, none⟩
      | .error e => .ok ⟨.Error, req.request_id, none, some ⟨"mint_failed", e⟩⟩
  | .GetMeltQuote =>
    match m.parseMeltQuote (req.data.getD .null) with
    | none => .error ()
    | some p =>
      match m.meltQuote p with
      | .ok q => .ok ⟨.Success, req.request_id, some q, none⟩
      | .error e => .ok ⟨.Error, req.request_id, none, some ⟨"get_melt_quote_failed", e⟩⟩
  | .CheckMeltQuote =>
    match m.parseCheckMeltQuote (req.data.getD .null) with
    | none => .error ()
    | some p =>
      match m.checkMeltQuote p with
      | .ok q => .ok ⟨.Success, req.request_id, some q, none⟩
      | .error e => .ok ⟨.Error, req.request_id, none, some ⟨"check_melt_quote_failed", e⟩⟩
  | .Melt =>
    match m.parseMelt (req.data.getD .null) with
    | none => .error ()
    | some p =>
      match m.melt p with
      | .ok q => .ok ⟨.Success, req.request_id, some q, none⟩
      | .error e => .ok ⟨.Error, req.request_id, none, some ⟨"melt_failed", e⟩⟩

/-- The per-method payload decoder of `defaultMintHandle` (identity for
`Info`, which takes no payload). -/
def MintModel.payloadParser (m : MintModel) : OperationMethod → Json → Option Json
  | .Info => fun j => some j
  | .GetMintQuote => m.parseMintQuote
  | .CheckMintQuote => m.parseCheckMintQuote
  | .Mint => m.parseMint
  | .GetMeltQuote => m.parseMeltQuote
  | .CheckMeltQuote => m.parseCheckMeltQuote
  | .Melt => m.parseMelt

/-! ## The service orchestrator (`MintService`, `src/service.rs`) -/

/-- `ServiceMode` from `src/config.rs`. -/
inductive ServiceMode where
  | MintdOnly : ServiceMode
  | Nip74Only : ServiceMode
  | MintdAndNip74 : ServiceMode
deriving DecidableEq

/-- `ServiceError` from `src/service.rs` (payloads elided; only
`invalidMode` is produced by the modelled paths). -/
inductive ServiceError where
  | nip74 : ServiceError
  | nostr : ServiceError
  | join : ServiceError
  | mintd : ServiceError
  | invalidMode : ServiceError
deriving DecidableEq

/-- Externally visible side effects of the orchestrator, in order. -/
inductive ServiceAction where
  | mintdStart : ServiceAction
  | addRelay (url : String) : ServiceAction
  | connect : ServiceAction
  | waitForConnection : ServiceAction
  | sendMintInfo : ServiceAction
  | subscribe : ServiceAction
  | spawnListener : ServiceAction
  | abortTask : ServiceAction
  | disconnect : ServiceAction
  | mintdStop : ServiceAction
deriving DecidableEq

/-- The orchestrator state: mode, configured relays, whether the mintd
subsystem exists (`mintd: Option<MintdService>`) and is running, presence
of signer/handler, the relay-pool client and the background listener task
handle (`_nip74_task`). -/
structure MintService where
  mode : ServiceMode
  relays : List String
  mintdPresent : Bool
  mintdRunning : Bool
  signerSet : Bool
  handlerSet : Bool
  clientSet : Bool
  nip74Task : Bool

namespace MintService

/-- `MintService::new` (`src/service.rs:73-139`): a mintd subsystem is
constructed for `MintdOnly`/`MintdAndNip74`; signer, handler, client and
task all start unset. -/
def new (mode : ServiceMode) (relays : List String) : MintService :=
  { mode := mode
    relays := relays
    mintdPresent := match mode with
      | .Nip74Only => false
      | _ => true
    mintdRunning := false
    signerSet := false
    handlerSet := false
    clientSet := false
    nip74Task := false }

/-- `MintService::set_signer` (`src/service.rs:142-150`): rejected with
`InvalidMode` in `MintdOnly` mode, leaving the service untouched. -/
def set_signer (s : MintService) : MintService × Option ServiceError :=
  match s.mode with
  | .MintdOnly => (s, some .invalidMode)
  | _ => ({ s with signerSet := true }, none)

/-- `MintService::set_handler` (`src/service.rs:153-161`). -/
def set_handler (s : MintService) : MintService × Option ServiceError :=
  match s.mode with
  | .MintdOnly => (s, some .invalidMode)
  | _ => ({ s with handlerSet := true }, none)

/-- `MintService::auto_configure` (`src/service.rs:164-177`): a no-op in
`MintdOnly` mode; otherwise installs the `DefaultRequestHandler` via
`set_handler`. -/
def auto_configure (s : MintService) : MintService × Option ServiceError :=
  match s.mode with
  | .MintdOnly => (s, none)
  | _ => s.set_handler

/-- `MintService::start_mintd_only` (`src/service.rs:189-195`); the mintd
subsystem's own startup is an external collaborator, modelled as
succeeding. -/
def start_mintd_only (s : MintService) :
    MintService × List ServiceAction × Option ServiceError :=
  if s.mintdPresent then ({ s with mintdRunning := true }, [.mintdStart], none)
  else (s, [], none)

/-- `MintService::start_nip74_only` (`src/service.rs:198-289`): missing
signer or handler aborts with `InvalidMode` before any relay is added;
otherwise the relays are registered and connected, the mint-info event is
published, kind 27401 is subscribed and the listener task spawned (relay
transport modelled as succeeding). -/
def start_nip74_only (s : MintService) :
    MintService × List ServiceAction × Option ServiceError :=
  if s.signerSet = false then (s, [], some .invalidMode)
  else if s.handlerSet = false then (s, [], some .invalidMode)
  else
    ({ s with clientSet := true, nip74Task := true },
     (s.relays.map ServiceAction.addRelay) ++
       [.connect, .waitForConnection, .sendMintInfo, .subscribe, .spawnListener],
     none)

/-- `MintService::start_mintd_and_nip74` (`src/service.rs:292-304`):
starts mintd first, then the NIP-74 front end. -/
def start_mintd_and_nip74 (s : MintService) :
    MintService × List ServiceAction × Option ServiceError :=
  let r1 := s.start_mintd_only
  match r1.2.2 with
  | some e => (r1.1, r1.2.1, some e)
  | none =>
    let r2 := r1.1.start_nip74_only
    (r2.1, r1.2.1 ++ r2.2.1, r2.2.2)

/-- `MintService::start` (`src/service.rs:180-186`): dispatch on mode. -/
def start (s : MintService) : MintService × List ServiceAction × Option ServiceError :=
  match s.mode with
  | .MintdOnly => s.start_mintd_only
  | .Nip74Only => s.start_nip74_only
  | .MintdAndNip74 => s.start_mintd_and_nip74

/-- `MintService::stop` (`src/service.rs:307-326`) together with
`MintdService::stop` (`src/mintd_service.rs:428-443`): abort and take the
listener task if held, disconnect the client if present, and stop mintd
(which no-ops when not running and never fails).  No path returns an
error. -/
def stop (s : MintService) : MintService × List ServiceAction × Option ServiceError :=
  let (s1, t1) :=
    if s.nip74Task then ({ s with nip74Task := false }, [ServiceAction.abortTask])
    else (s, ([] : List ServiceAction))
  let (s2, t2) :=
    if s1.clientSet then (s1, [ServiceAction.disconnect]) else (s1, ([] : List ServiceAction))
  let (s3, t3) :=
    if s2.mintdPresent then ({ s2 with mintdRunning := false }, [ServiceAction.mintdStop])
    else (s2, ([] : List ServiceAction))
  (s3, t1 ++ t2 ++ t3, none)

/-- The `mintd_running` field of `MintService::get_status`
(`src/service.rs:330`): `self.mintd.as_ref().map(|m| m.is_running()).unwrap_or(false)`. -/
def mintd_running_status (s : MintService) : Bool :=
  s.mintdPresent && s.mintdRunning

end MintService

/-! ## Concrete fixtures used by witnesses and counterexamples -/

/-- A payload decoder that rejects `null` and accepts anything else
verbatim — a representative of the serde decoding of the cdk request
types referenced by `DefaultMintHandler`. -/
def wParse : Json → Option Json
  | .null => none
  | v => some v

/-- A concrete mint model: `Info` succeeds with a demo payload, mint-quote
retrieval fails at the lightning backend, everything else echoes its
payload. -/
def wMint : MintModel :=
  { mintInfo := .ok (.obj [("name", .str "demo-mint")])
    parseMintQuote := wParse
    mintQuote := fun _ => .error "no lightning"
    parseCheckMintQuote := wParse
    checkMintQuote := fun p => .ok p
    parseMint := wParse
    mint := fun p => .ok p
    parseMeltQuote := wParse
    meltQuote := fun p => .ok p
    parseCheckMeltQuote := wParse
    checkMeltQuote := fun p => .ok p
    parseMelt := wParse
    melt := fun p => .ok p }

/-- The JSON plaintext of the demo request. -/
def wReqJson : Json :=
  .obj [("method", .str "info"),
        ("request_id", .str "11111111-1111-1111-1111-111111111111")]

/-- The demo request decoded from `wReqJson`. -/
def wReq : OperationRequest :=
  ⟨.Info, "11111111-1111-1111-1111-111111111111", none⟩

/-- A fully functional concrete signer: decrypts every ciphertext to the
demo request plaintext, encrypts to a fixed ciphertext, and signs with id
`"replyid"` and author pubkey `"mintpk"`. -/
def wSigner : Signer :=
  { getPublicKey := some "mintpk"
    nip44Encrypt := fun _ _ => some "reply-ct"
    nip44Decrypt := fun _ _ => some (.json wReqJson)
    signIdPk := fun _ => some ("replyid", "mintpk") }

/-- `wSigner` with NIP-44 encryption failing (e.g. remote signer down). -/
def wSignerNoEncrypt : Signer :=
  { wSigner with nip44Encrypt := fun _ _ => none }

/-- `wSigner` with `get_public_key` failing. -/
def wSignerNoPk : Signer :=
  { wSigner with getPublicKey := none }

/-- The JSON plaintext of a `get_mint_quote` request without payload. -/
def wQuoteReqJson : Json :=
  .obj [("method", .str "get_mint_quote"), ("request_id", .str "r1")]

/-- A signer decrypting every ciphertext to a `get_mint_quote` request
with no `data` payload. -/
def wSignerQuote : Signer :=
  { wSigner with nip44Decrypt := fun _ _ => some (.json wQuoteReqJson) }

/-- The inbound kind-27401 demo request event. -/
def wEvent : Event :=
  ⟨"reqid", "clientpk", 27401, [["p", "mintpk"]], .cipher "req-ct"⟩

/-- The reply event the pipeline produces for `wEvent` under `wSigner`
and `wMint`. -/
def wReply : Event :=
  ⟨"replyid", "mintpk", 27402, [["p", "clientpk"], ["e", "reqid"]], .cipher "reply-ct"⟩

/-- The handler result for the demo request under `wMint`. -/
def wRes : OperationResult :=
  ⟨.Success, "11111111-1111-1111-1111-111111111111",
    some (.obj [("info", .obj [("name", .str "demo-mint")])]), none⟩

/-- A `MintdAndNip74` service with a signer but no handler installed. -/
def c5ServiceNoHandler : MintService :=
  ((MintService.new .MintdAndNip74 ["wss://relay.example"]).set_signer).1

/-- A `MintdAndNip74` service with both signer and handler installed. -/
def wServiceBoth : MintService :=
  (((MintService.new .MintdAndNip74 ["wss://relay.example"]).set_signer).1.set_handler).1

/-! ## Codec lemmas and theorems for the protocol types -/

theorem methodFromTag_toTag (m : OperationMethod) : methodFromTag (methodToTag m) = some m := by
  cases m <;> rfl

theorem statusFromTag_toTag (s : ResultStatus) : statusFromTag (statusToTag s) = some s := by
  cases s <;> rfl

theorem methodFromTag_eq_none {s : String} (h : ∀ m : OperationMethod, s ≠ methodToTag m) :
    methodFromTag s = none := by
  have h1 : s ≠ "info" := h .Info
  have h2 : s ≠ "get_mint_quote" := h .GetMintQuote
  have h3 : s ≠ "check_mint_quote" := h .CheckMintQuote
  have h4 : s ≠ "mint" := h .Mint
  have h5 : s ≠ "get_melt_quote" := h .GetMeltQuote
  have h6 : s ≠ "check_melt_quote" := h .CheckMeltQuote
  have h7 : s ≠ "melt" := h .Melt
  unfold methodFromTag
  rw [if_neg h1, if_neg h2, if_neg h3, if_neg h4, if_neg h5, if_neg h6, if_neg h7]

theorem decodeOperationRequest_roundtrip (r : OperationRequest)
    (h : r.data ≠ some Json.null) :
    decodeOperationRequest (encodeOperationRequest r) = some r := by
  obtain ⟨m, rid, data⟩ := r
  cases data with
  | none =>
    simp [encodeOperationRequest, decodeOperationRequest, jlookup, decodeMethod,
      decodeString, decodeOptValue, methodFromTag_toTag]
  | some d =>
    cases d <;>
      simp_all [encodeOperationRequest, decodeOperationRequest, jlookup, decodeMethod,
        decodeString, decodeOptValue, methodFromTag_toTag]

theorem decodeOperationResult_roundtrip (r : OperationResult)
    (h : r.data ≠ some Json.null) :
    decodeOperationResult (encodeOperationResult r) = some r := by
  obtain ⟨st, rid, data, err⟩ := r
  cases err with
  | none =>
    cases data with
    | none =>
      simp [encodeOperationResult, decodeOperationResult, jlookup, decodeStatus,
        decodeString, decodeOptValue, decodeOptError, statusFromTag_toTag]
    | some d =>
      cases d <;>
        simp_all [encodeOperationResult, decodeOperationResult, jlookup, decodeStatus,
          decodeString, decodeOptValue, decodeOptError, statusFromTag_toTag]
  | some e =>
    cases data with
    | none =>
      simp [encodeOperationResult, decodeOperationResult, jlookup, decodeStatus,
        decodeString, decodeOptValue, decodeOptError, decodeResultError,
        encodeResultError, statusFromTag_toTag]
    | some d =>
      cases d <;>
        simp_all [encodeOperationResult, decodeOperationResult, jlookup, decodeStatus,
          decodeString, decodeOptValue, decodeOptError, decodeResultError,
          encodeResultError, statusFromTag_toTag]

/-- **C3** (counterexample).  The round-trip law fails at
`OperationRequest { method: Info, request_id: "x", data: Some(Value::Null) }`:
serialization writes `"data": null`, and serde's `Option<Value>` decoder
turns an explicit `null` back into `None`, so the decoded value differs
from the original in its `data` field. -/
theorem c3_roundtrip_null_data_counterexample :
    decodeOperationRequest (encodeOperationRequest ⟨.Info, "x", some Json.null⟩) =
      some ⟨OperationMethod.Info, "x", none⟩ ∧
    decodeOperationRequest (encodeOperationRequest ⟨.Info, "x", some Json.null⟩) ≠
      some ⟨OperationMethod.Info, "x", some Json.null⟩ := by
  constructor
  · rfl
  · intro hEq
    have h0 : decodeOperationRequest (encodeOperationRequest ⟨.Info, "x", some Json.null⟩) =
        some ⟨OperationMethod.Info, "x", none⟩ := rfl
    rw [h0] at hEq
    simp at hEq

/-- **C3** (amended).  Serializing then deserializing an
`OperationRequest` or `OperationResult` yields the original value
field-for-field, for every method and every combination of present/absent
`data` and `error` fields — except when `data` is an explicit JSON `null`
(`Some(Value::Null)`), which decodes back to `None`. -/
theorem c3_serde_roundtrip (req : OperationRequest) (res : OperationResult)
    (hreq : req.data ≠ some Json.null) (hres : res.data ≠ some Json.null) :
    decodeOperationRequest (encodeOperationRequest req) = some req ∧
    decodeOperationResult (encodeOperationResult res) = some res :=
  ⟨decodeOperationRequest_roundtrip req hreq, decodeOperationResult_roundtrip res hres⟩

/-- Witness for `c3_serde_roundtrip` at concrete request/result values. -/
theorem c3_serde_roundtrip_witness :
    decodeOperationRequest
      (encodeOperationRequest ⟨.Mint, "abc-123", some (.obj [("foo", .num 1)])⟩) =
      some ⟨OperationMethod.Mint, "abc-123", some (.obj [("foo", .num 1)])⟩ ∧
    decodeOperationResult
      (encodeOperationResult ⟨.Error, "id-1", none, some ⟨"fail", "fail msg"⟩⟩) =
      some ⟨ResultStatus.Error, "id-1", none, some ⟨"fail", "fail msg"⟩⟩ :=
  c3_serde_roundtrip ⟨.Mint, "abc-123", some (.obj [("foo", .num 1)])⟩
    ⟨.Error, "id-1", none, some ⟨"fail", "fail msg"⟩⟩ (by simp) (by simp)

/-- **C4**.  Decoding a JSON object whose `method` field is not one of the
seven snake_case tags fails (in particular
`{"method":"frobnicate","request_id":"x"}`), and so does decoding an
object missing `method` or missing `request_id`; no default variant is
ever produced. -/
theorem c4_unknown_method_rejected :
    decodeOperationRequest
      (.obj [("method", .str "frobnicate"), ("request_id", .str "x")]) = none ∧
    (∀ (fields : List (String × Json)) (s : String),
      jlookup fields "method" = some (.str s) →
      (∀ m : OperationMethod, s ≠ methodToTag m) →
      decodeOperationRequest (.obj fields) = none) ∧
    (∀ fields : List (String × Json), jlookup fields "method" = none →
      decodeOperationRequest (.obj fields) = none) ∧
    (∀ fields : List (String × Json), jlookup fields "request_id" = none →
      decodeOperationRequest (.obj fields) = none) := by
  refine ⟨rfl, ?_, ?_, ?_⟩
  · intro fields s hm hs
    simp [decodeOperationRequest, hm, decodeMethod, methodFromTag_eq_none hs]
  · intro fields hm
    simp [decodeOperationRequest, hm]
  · intro fields hr
    cases hmj : jlookup fields "method" with
    | none => simp [decodeOperationRequest, hmj]
    | some mj =>
      cases hm : decodeMethod mj with
      | none => simp [decodeOperationRequest, hmj, hm]
      | some m => simp [decodeOperationRequest, hmj, hm, hr]

/-- Witness for `c4_unknown_method_rejected`: the frobnicate input, an
input missing `method`, an input missing `request_id`, and an unknown tag
differing from all seven. -/
theorem c4_unknown_method_rejected_witness :
    decodeOperationRequest
      (.obj [("method", .str "frobnicate"), ("request_id", .str "x")]) = none ∧
    decodeOperationRequest (.obj [("request_id", Json.str "x")]) = none ∧
    decodeOperationRequest (.obj [("method", Json.str "info")]) = none ∧
    decodeOperationRequest
      (.obj [("method", Json.str "mint2"), ("request_id", Json.str "y")]) = none :=
  ⟨c4_unknown_method_rejected.1,
   c4_unknown_method_rejected.2.2.1 [("request_id", Json.str "x")] rfl,
   c4_unknown_method_rejected.2.2.2 [("method", Json.str "info")] rfl,
   c4_unknown_method_rejected.2.1 [("method", Json.str "mint2"), ("request_id", Json.str "y")]
     "mint2" rfl (by intro m; cases m <;> decide)⟩


/-! ## Listener pipeline lemmas and theorems -/

theorem to_event_with_signer_shape (res : OperationResult) (signer : Signer)
    (apk rpk : PubKey) (reqId : EventId) (ev : Event)
    (h : res.to_event_with_signer signer apk rpk reqId none = some ev) :
    ev.kind = 27402 ∧ ev.tags = [["p", rpk], ["e", reqId]] ∧
    ∃ ct, signer.nip44Encrypt rpk (.json (encodeOperationResult res)) = some ct ∧
      ev.content = .cipher ct := by
  unfold OperationResult.to_event_with_signer Signer.signEvent at h
  split at h
  · exact Option.noConfusion h
  · rename_i ct he
    dsimp only [] at h
    split at h
    · exact Option.noConfusion h
    · rename_i i pk hs
      injection h with h1
      subst h1
      exact ⟨rfl, by simp, ct, he, rfl⟩

theorem processEvent_published_inv (signer : Signer)
    (handler : OperationRequest → Except Unit OperationResult) (publish : Event → Bool)
    (ev replyEv : Event) (d : Bool)
    (h : processEvent signer handler publish ev = .published replyEv d) :
    ev.kind = 27401 ∧
    ∃ pt req res pk,
      signer.nip44Decrypt ev.pubkey ev.content = some pt ∧
      parseOperationRequest pt = some req ∧
      handler req = .ok res ∧
      signer.getPublicKey = some pk ∧
      res.to_event_with_signer signer pk ev.pubkey ev.id none = some replyEv ∧
      publish replyEv = d := by
  unfold processEvent at h
  split at h
  · exact StepOutcome.noConfusion h
  · rename_i hk
    split at h
    · exact StepOutcome.noConfusion h
    · rename_i pt hd
      split at h
      · exact StepOutcome.noConfusion h
      · rename_i req hp
        split at h
        · exact StepOutcome.noConfusion h
        · rename_i res hh
          split at h
          · exact StepOutcome.noConfusion h
          · rename_i pk hpk
            split at h
            · exact StepOutcome.noConfusion h
            · rename_i rEv hb
              injection h with h1 h2
              subst h1
              exact ⟨not_ne_iff.mp hk, pt, req, res, pk, hd, hp, hh, hpk, hb, h2⟩

theorem defaultMintHandle_request_id (m : MintModel) (req : OperationRequest)
    (res : OperationResult) (h : defaultMintHandle m req = .ok res) :
    res.request_id = req.request_id := by
  unfold defaultMintHandle at h
  split at h <;>
    (try (split at h <;> try split at h)) <;>
    first
      | exact Except.noConfusion h
      | (injection h with h1; subst h1; rfl)

/-- **C1**.  A request processed end to end by the listener pipeline with
the default mint handler (decrypt, parse and handler all succeed and a
reply is produced) yields an `OperationResult` whose `request_id` equals
the decoded request's `request_id`, and a kind-27402 reply event whose
`e` tag is the originating 27401 event's id and whose `p` tag is the
requester's pubkey. -/
theorem c1_pipeline_correlation (m : MintModel) (signer : Signer) (publish : Event → Bool)
    (ev replyEv : Event) (pt : Plaintext) (req : OperationRequest) (d : Bool)
    (hdec : signer.nip44Decrypt ev.pubkey ev.content = some pt)
    (hparse : parseOperationRequest pt = some req)
    (hrun : processEvent signer (defaultMintHandle m) publish ev = .published replyEv d) :
    ∃ res : OperationResult,
      defaultMintHandle m req = .ok res ∧
      res.request_id = req.request_id ∧
      replyEv.kind = 27402 ∧
      replyEv.tags = [["p", ev.pubkey], ["e", ev.id]] := by
  obtain ⟨hk, pt2, req2, res, pk, hd2, hp2, hh2, hpk2, hb2, hpub2⟩ :=
    processEvent_published_inv signer (defaultMintHandle m) publish ev replyEv d hrun
  rw [hdec] at hd2
  injection hd2 with e1
  subst e1
  rw [hparse] at hp2
  injection hp2 with e2
  subst e2
  obtain ⟨hkind, htags, -⟩ :=
    to_event_with_signer_shape res signer pk ev.pubkey ev.id replyEv hb2
  exact ⟨res, hh2, defaultMintHandle_request_id m req res hh2, hkind, htags⟩

/-- Witness for `c1_pipeline_correlation` on the concrete demo pipeline. -/
theorem c1_pipeline_correlation_witness :
    ∃ res : OperationResult,
      defaultMintHandle wMint wReq = .ok res ∧
      res.request_id = wReq.request_id ∧
      wReply.kind = 27402 ∧
      wReply.tags = [["p", wEvent.pubkey], ["e", wEvent.id]] :=
  c1_pipeline_correlation wMint wSigner (fun _ => true) wEvent wReply
    (.json wReqJson) wReq true rfl rfl rfl

/-- **C2** (counterexample).  Decrypt, parse and handler all succeed on
the demo event, yet no kind-27402 reply is published, because NIP-44
encryption of the reply fails (`wSignerNoEncrypt`): the claimed
"if and only if" omits the success of outbound reply construction. -/
theorem c2_reply_iff_counterexample :
    wSignerNoEncrypt.nip44Decrypt wEvent.pubkey wEvent.content = some (.json wReqJson) ∧
    parseOperationRequest (.json wReqJson) = some wReq ∧
    defaultMintHandle wMint wReq = .ok wRes ∧
    (processEvent wSignerNoEncrypt (defaultMintHandle wMint) (fun _ => true) wEvent).isPublished
      = false :=
  ⟨rfl, rfl, rfl, rfl⟩

/-- **C2** (amended).  The listener publishes a kind-27402 reply iff the
event has kind 27401, decryption succeeds, the plaintext parses as an
`OperationRequest`, the handler returns `Ok` (business failures encoded
as `Ok(status: Error)` included, since the status is irrelevant here),
and outbound reply construction succeeds (`get_public_key`, NIP-44
encryption and signing); decrypt failure, parse failure or a handler
`Err` produce no reply. -/
theorem c2_reply_iff (signer : Signer)
    (handler : OperationRequest → Except Unit OperationResult)
    (publish : Event → Bool) (ev : Event) :
    (processEvent signer handler publish ev).isPublished = true ↔
    (ev.kind = 27401 ∧ ∃ pt req res pk replyEv,
      signer.nip44Decrypt ev.pubkey ev.content = some pt ∧
      parseOperationRequest pt = some req ∧
      handler req = .ok res ∧
      signer.getPublicKey = some pk ∧
      res.to_event_with_signer signer pk ev.pubkey ev.id none = some replyEv) := by
  constructor
  · intro h
    cases ho : processEvent signer handler publish ev <;> rw [ho] at h
    case published rEv d =>
      obtain ⟨hk, pt, req, res, pk, hd, hp, hh, hpk, hb, -⟩ :=
        processEvent_published_inv signer handler publish ev rEv d ho
      exact ⟨hk, pt, req, res, pk, rEv, hd, hp, hh, hpk, hb⟩
    all_goals simp [StepOutcome.isPublished] at h
  · rintro ⟨hk, pt, req, res, pk, rEv, hd, hp, hh, hpk, hb⟩
    simp [processEvent, hk, hd, hp, hh, hpk, hb, StepOutcome.isPublished]

/-- **C8** (code-bug evaluation).  An inbound event that decrypts and
parses fine and whose handler returns `Ok` reaches the
`signer.get_public_key().await.unwrap()` call of `src/service.rs:254`;
when that signer call fails the unwrap panics, terminating the listener
task (`killsTask`), instead of logging and continuing as the claim
requires. -/
theorem c8_signer_failure_panics_listener :
    processEvent wSignerNoPk (defaultMintHandle wMint) (fun _ => true) wEvent = .panicked ∧
    (processEvent wSignerNoPk (defaultMintHandle wMint) (fun _ => true) wEvent).killsTask
      = true ∧
    wSignerNoPk.nip44Decrypt wEvent.pubkey wEvent.content = some (.json wReqJson) ∧
    defaultMintHandle wMint wReq = .ok wRes :=
  ⟨rfl, rfl, rfl, rfl⟩

/-- **C10**.  For every payload-carrying method, a missing `data` field or
one that fails to decode as the method's expected shape makes
`DefaultMintHandler::handle` return `Err` — so the listener pipeline
publishes no reply at all — whereas only a failure of the underlying mint
call is delivered as a `status: Error` result carrying the
method-specific error code. -/
theorem c10_payload_errors (m : MintModel) (req : OperationRequest)
    (hnull : m.ParsersRejectNull) (hmeth : req.method ≠ .Info) :
    ((req.data = none ∨ m.payloadParser req.method (req.data.getD .null) = none) →
      defaultMintHandle m req = .error ()) ∧
    (∀ (signer : Signer) (publish : Event → Bool) (ev : Event) (pt : Plaintext),
      signer.nip44Decrypt ev.pubkey ev.content = some pt →
      parseOperationRequest pt = some req →
      (req.data = none ∨ m.payloadParser req.method (req.data.getD .null) = none) →
      (processEvent signer (defaultMintHandle m) publish ev).isPublished = false) ∧
    (∀ res : OperationResult, defaultMintHandle m req = .ok res → res.status = .Error →
      ∃ msg, res.error = some ⟨methodErrorCode req.method, msg⟩) := by
  have hpp : (req.data = none ∨ m.payloadParser req.method (req.data.getD .null) = none) →
      m.payloadParser req.method (req.data.getD .null) = none := by
    rintro (hd | hp)
    · rw [hd]
      cases hm2 : req.method with
      | Info => exact absurd hm2 hmeth
      | GetMintQuote => simpa [MintModel.payloadParser] using hnull.1
      | CheckMintQuote => simpa [MintModel.payloadParser] using hnull.2.1
      | Mint => simpa [MintModel.payloadParser] using hnull.2.2.1
      | GetMeltQuote => simpa [MintModel.payloadParser] using hnull.2.2.2.1
      | CheckMeltQuote => simpa [MintModel.payloadParser] using hnull.2.2.2.2.1
      | Melt => simpa [MintModel.payloadParser] using hnull.2.2.2.2.2
    · exact hp
  have herr : m.payloadParser req.method (req.data.getD .null) = none →
      defaultMintHandle m req = .error () := by
    intro hpn
    cases hm2 : req.method with
    | Info => exact absurd hm2 hmeth
    | GetMintQuote =>
      rw [hm2] at hpn
      simp [MintModel.payloadParser] at hpn
      simp [defaultMintHandle, hm2, hpn]
    | CheckMintQuote =>
      rw [hm2] at hpn
      simp [MintModel.payloadParser] at hpn
      simp [defaultMintHandle, hm2, hpn]
    | Mint =>
      rw [hm2] at hpn
      simp [MintModel.payloadParser] at hpn
      simp [defaultMintHandle, hm2, hpn]
    | GetMeltQuote =>
      rw [hm2] at hpn
      simp [MintModel.payloadParser] at hpn
      simp [defaultMintHandle, hm2, hpn]
    | CheckMeltQuote =>
      rw [hm2] at hpn
      simp [MintModel.payloadParser] at hpn
      simp [defaultMintHandle, hm2, hpn]
    | Melt =>
      rw [hm2] at hpn
      simp [MintModel.payloadParser] at hpn
      simp [defaultMintHandle, hm2, hpn]
  refine ⟨fun hcond => herr (hpp hcond), ?_, ?_⟩
  · intro signer publish ev pt hdec hparse hcond
    have he := herr (hpp hcond)
    by_cases hk : ev.kind = 27401
    · simp [processEvent, hk, hdec, hparse, he, StepOutcome.isPublished]
    · simp [processEvent, hk, StepOutcome.isPublished]
  · intro res hok hstatus
    cases hm2 : req.method
    case Info => exact absurd hm2 hmeth
    all_goals (
      simp only [defaultMintHandle, hm2] at hok
      split at hok <;> try split at hok
      all_goals first
        | exact Except.noConfusion hok
        | (injection hok with h1; subst h1; simp_all [methodErrorCode]))

/-- Witness for `c10_payload_errors`: a `get_mint_quote` request with no
payload is a handler error and yields no published reply, and a
lightning-side failure is delivered with code `get_mint_quote_failed`. -/
theorem c10_payload_errors_witness :
    defaultMintHandle wMint ⟨.GetMintQuote, "r1", none⟩ = .error () ∧
    (processEvent wSignerQuote (defaultMintHandle wMint) (fun _ => true) wEvent).isPublished
      = false ∧
    (∃ msg,
      (OperationResult.mk .Error "r2" none
          (some ⟨"get_mint_quote_failed", "no lightning"⟩)).error
        = some ⟨methodErrorCode .GetMintQuote, msg⟩) :=
  ⟨(c10_payload_errors wMint ⟨.GetMintQuote, "r1", none⟩ ⟨rfl, rfl, rfl, rfl, rfl, rfl⟩
      (by decide)).1 (Or.inl rfl),
   (c10_payload_errors wMint ⟨.GetMintQuote, "r1", none⟩ ⟨rfl, rfl, rfl, rfl, rfl, rfl⟩
      (by decide)).2.1 wSignerQuote (fun _ => true) wEvent (.json wQuoteReqJson)
      rfl rfl (Or.inl rfl),
   (c10_payload_errors wMint ⟨.GetMintQuote, "r2", some (.obj [])⟩ ⟨rfl, rfl, rfl, rfl, rfl, rfl⟩
      (by decide)).2.2
      ⟨.Error, "r2", none, some ⟨"get_mint_quote_failed", "no lightning"⟩⟩ rfl rfl⟩

/-! ## Service orchestrator theorems -/

/-- **C9**.  `build_mint_info_event` yields a kind-37400 event whose
content is exactly the plaintext JSON of the supplied mint info (no
encryption), whose tags are the `d` tag with the identifier, the `relays`
tag listing the relay URLs and the `status` tag, with caller-supplied
extras appended, and whose id/author come from the supplied signer; the
function only returns the event and publishes nothing. -/
theorem c9_build_mint_info_event (info : Json) (signer : Signer) (identifier : String)
    (relays : List String) (status : String) (extras : List (List String)) (ev : Event)
    (h : build_mint_info_event info signer identifier relays status (some extras) = some ev) :
    ev.kind = 37400 ∧
    ev.content = .plain info ∧
    ev.tags = [["d", identifier], "relays" :: relays, ["status", status]] ++ extras ∧
    signer.signIdPk
        ⟨37400, [["d", identifier], "relays" :: relays, ["status", status]] ++ extras,
         .plain info⟩
      = some (ev.id, ev.pubkey) := by
  unfold build_mint_info_event Signer.signEvent at h
  dsimp only [] at h
  split at h
  · exact Option.noConfusion h
  · rename_i i pk hs
    injection h with h1
    subst h1
    exact ⟨rfl, rfl, rfl, hs⟩

/-- Witness for `c9_build_mint_info_event` with the demo signer. -/
theorem c9_build_mint_info_event_witness :
    ∃ ev, build_mint_info_event (.obj [("name", .str "demo-mint")]) wSigner "demo-mint"
        ["wss://relay.example"] "running" (some [["t", "mint"]]) = some ev ∧
      ev.kind = 37400 ∧
      ev.content = .plain (.obj [("name", .str "demo-mint")]) ∧
      ev.tags = [["d", "demo-mint"], ["relays", "wss://relay.example"],
        ["status", "running"], ["t", "mint"]] :=
  ⟨⟨"replyid", "mintpk", 37400,
     [["d", "demo-mint"], ["relays", "wss://relay.example"],
      ["status", "running"], ["t", "mint"]], .plain (.obj [("name", .str "demo-mint")])⟩,
   rfl,
   (c9_build_mint_info_event (.obj [("name", .str "demo-mint")]) wSigner "demo-mint"
      ["wss://relay.example"] "running" [["t", "mint"]] _ rfl).1,
   (c9_build_mint_info_event (.obj [("name", .str "demo-mint")]) wSigner "demo-mint"
      ["wss://relay.example"] "running" [["t", "mint"]] _ rfl).2.1,
   (c9_build_mint_info_event (.obj [("name", .str "demo-mint")]) wSigner "demo-mint"
      ["wss://relay.example"] "running" [["t", "mint"]] _ rfl).2.2.1⟩

/-- **C5** (counterexample).  In `MintdAndNip74` mode with a signer set
but `set_handler` never called, `start()` does not install a default
handler: it fails with `InvalidMode` (after having started the mintd
subsystem), so `start()` in Both mode does not succeed without a prior
`set_handler` call. -/
theorem c5_no_auto_handler_counterexample :
    c5ServiceNoHandler.mode = .MintdAndNip74 ∧
    c5ServiceNoHandler.signerSet = true ∧
    c5ServiceNoHandler.handlerSet = false ∧
    (c5ServiceNoHandler.start).2.2 = some .invalidMode ∧
    (c5ServiceNoHandler.start).1.handlerSet = false :=
  ⟨rfl, rfl, rfl, rfl, rfl⟩

/-- **C5** (amended).  In `MintdAndNip74` mode `start()` starts the local
mint subsystem before the protocol front end (the action trace begins
with `mintdStart`), but installs no default handler itself: the default
`DefaultRequestHandler` is installed by the separate `auto_configure()`
method, and `start()` without a previously set handler fails with an
invalid-mode error. -/
theorem c5_both_mode_start (s : MintService)
    (hmode : s.mode = .MintdAndNip74) (hmintd : s.mintdPresent = true) :
    (s.signerSet = true → s.handlerSet = true →
      (s.start).2.2 = none ∧
      (s.start).2.1 = [ServiceAction.mintdStart] ++ (s.relays.map ServiceAction.addRelay) ++
        [.connect, .waitForConnection, .sendMintInfo, .subscribe, .spawnListener] ∧
      (s.start).1.mintdRunning = true ∧
      (s.start).1.nip74Task = true) ∧
    (s.handlerSet = false → (s.start).2.2 = some .invalidMode) ∧
    (s.auto_configure).1.handlerSet = true := by
  refine ⟨?_, ?_, ?_⟩
  · intro hsig hhand
    simp [MintService.start, hmode, MintService.start_mintd_and_nip74,
      MintService.start_mintd_only, MintService.start_nip74_only, hmintd, hsig, hhand]
  · intro hhand
    cases hsig : s.signerSet <;>
      simp [MintService.start, hmode, MintService.start_mintd_and_nip74,
        MintService.start_mintd_only, MintService.start_nip74_only, hmintd, hsig, hhand]
  · simp [MintService.auto_configure, hmode, MintService.set_handler]

/-- Witness for `c5_both_mode_start` on concrete Both-mode services. -/
theorem c5_both_mode_start_witness :
    ((wServiceBoth.start).2.2 = none ∧
      (wServiceBoth.start).2.1 = [ServiceAction.mintdStart] ++
        (wServiceBoth.relays.map ServiceAction.addRelay) ++
        [.connect, .waitForConnection, .sendMintInfo, .subscribe, .spawnListener] ∧
      (wServiceBoth.start).1.mintdRunning = true ∧
      (wServiceBoth.start).1.nip74Task = true) ∧
    ((c5ServiceNoHandler.start).2.2 = some .invalidMode) ∧
    (wServiceBoth.auto_configure).1.handlerSet = true :=
  ⟨(c5_both_mode_start wServiceBoth rfl rfl).1 rfl rfl,
   (c5_both_mode_start c5ServiceNoHandler rfl rfl).2.1 rfl,
   (c5_both_mode_start wServiceBoth rfl rfl).2.2⟩

/-- **C6**.  `set_signer` and `set_handler` on a `MintdOnly` service both
return an invalid-mode error and leave the service unchanged, and
`start()` on a `Nip74Only` service without a signer returns an
invalid-mode error with the service unchanged and no action performed —
no relay added, nothing published, no panic. -/
theorem c6_mode_gating (s t : MintService)
    (hs : s.mode = .MintdOnly) (ht : t.mode = .Nip74Only) (htsig : t.signerSet = false) :
    s.set_signer = (s, some .invalidMode) ∧
    s.set_handler = (s, some .invalidMode) ∧
    t.start = (t, [], some .invalidMode) := by
  refine ⟨?_, ?_, ?_⟩
  · simp [MintService.set_signer, hs]
  · simp [MintService.set_handler, hs]
  · simp [MintService.start, ht, MintService.start_nip74_only, htsig]

/-- Witness for `c6_mode_gating` on freshly constructed services. -/
theorem c6_mode_gating_witness :
    (MintService.new .MintdOnly []).set_signer =
      (MintService.new .MintdOnly [], some .invalidMode) ∧
    (MintService.new .MintdOnly []).set_handler =
      (MintService.new .MintdOnly [], some .invalidMode) ∧
    (MintService.new .Nip74Only ["wss://relay.example"]).start =
      (MintService.new .Nip74Only ["wss://relay.example"], [], some .invalidMode) :=
  c6_mode_gating (MintService.new .MintdOnly []) (MintService.new .Nip74Only ["wss://relay.example"])
    rfl rfl rfl

/-- **C7**.  `stop()` always succeeds — including on a service that was
never started — and afterwards the listener-task handle is cleared and
the mintd subsystem reports not running; a second `stop()` succeeds again
and leaves the state unchanged. -/
theorem c7_stop_idempotent (s : MintService) :
    (s.stop).2.2 = none ∧
    (s.stop).1.nip74Task = false ∧
    (s.stop).1.mintd_running_status = false ∧
    ((s.stop).1.stop).2.2 = none ∧
    ((s.stop).1.stop).1 = (s.stop).1 := by
  obtain ⟨mode, relays, mp, mr, ss, hset, cs, nt⟩ := s
  cases nt <;> cases cs <;> cases mp <;>
    simp [MintService.stop, MintService.mintd_running_status]
